import Mathlib

/-!
Shallow embedding of the generation orchestrator of the tarot-deck
generator (src/services/geminiService.ts and
src/components/DeckGenerator.tsx), together with theorems checking the
natural-language specification against it.

External service calls are modelled by oracles: a function from the
attempt number (and, for metadata, the requested name list) to the
outcome the service produces on that call.  Time is modelled by
recording the delays (in milliseconds) the code would await.
-/

namespace Tarot

/-- Names of the five deck sections, from the `DeckSection` union type in
src/types. -/
inductive DeckSection where
  | majorArcana
  | wands
  | cups
  | swords
  | pentacles
deriving DecidableEq, Repr

/-- Display string of a section, as in the TypeScript union values. -/
def DeckSection.name : DeckSection → String
  | .majorArcana => "Major Arcana"
  | .wands => "Wands"
  | .cups => "Cups"
  | .swords => "Swords"
  | .pentacles => "Pentacles"

/-- Lower-cased, hyphenated section slug used in card ids
(`section.toLowerCase().replace(/\s+/g, '-')` in geminiService.ts). -/
def DeckSection.slug : DeckSection → String
  | .majorArcana => "major-arcana"
  | .wands => "wands"
  | .cups => "cups"
  | .swords => "swords"
  | .pentacles => "pentacles"

/-- Raw metadata entry as returned by the service for one card
(the JSON schema of generateBatch). -/
structure RawCard where
  name : String
  description : String
  uprightMeaning : String
  reversedMeaning : String
  visualPrompt : String
deriving DecidableEq, Repr

/-- One deck entry (`TarotCardData` in src/types): raw fields plus the
id, owning section, optional produced image and loading flag. -/
structure Card where
  id : String
  name : String
  description : String
  uprightMeaning : String
  reversedMeaning : String
  visualPrompt : String
  imageUrl : Option String
  isLoadingImage : Bool
  sec : DeckSection
deriving DecidableEq, Repr

/-- Outcome of one raw image-service call inside the retry loop of
generateCardImage: either a response carrying inline image data, or a
thrown error whose stringified message is recorded (the
no-image-data response is folded into `err`, since the code throws
"No image data found in response" and classifies it like any error). -/
inductive CallRes where
  | image (data : String)
  | err (msg : String)
deriving DecidableEq, Repr

/-- True when the first character list starts the second one; helper for
the substring check below. -/
def leadsWith : List Char → List Char → Bool
  | [], _ => true
  | _ :: _, [] => false
  | p :: ps, c :: cs => p == c && leadsWith ps cs

/-- True when `pat` occurs as a contiguous run inside the second list;
embeds JavaScript `String.prototype.includes` on the underlying
characters. -/
def occursIn (pat : List Char) : List Char → Bool
  | [] => leadsWith pat []
  | c :: rest => leadsWith pat (c :: rest) || occursIn pat rest

/-- Classification of a stringified error in generateCardImage:
`errorMsg.includes("429") || errorMsg.includes("exhausted") ||
errorMsg.includes("quota")` on the lower-cased message. -/
def isRateLimited (msg : String) : Bool :=
  let m := msg.data.map Char.toLower
  occursIn "429".data m || occursIn "exhausted".data m ||
    occursIn "quota".data m

/-- Placeholder URL returned when the retry budget for a quota error is
exhausted. -/
def quotaPlaceholder : String :=
  "https://placehold.co/300x400/1e1e2e/FFF?text=Quota+Exceeded"

/-- Placeholder URL returned for a non-quota (fatal) image error. -/
def failPlaceholder : String :=
  "https://placehold.co/300x400/1e1e2e/FFF?text=Generation+Failed"

/-- Data URL built from returned inline image data. -/
def dataUrl (d : String) : String := "data:image/png;base64," ++ d

/-- Trace of one generateCardImage invocation: how many service calls
were made, the delays (ms) awaited between successive calls, and the
string the function returned. -/
structure RetryTrace where
  attempts : Nat
  delays : List Nat
  url : String
deriving DecidableEq, Repr

/-- The retry loop of generateCardImage: `retries` is the
attempts-remaining counter (initially 3), `delay` the current backoff
delay in ms (initially 10000, multiplied by 1.5 after each wait), `k`
the index of the current attempt fed to the call oracle.  On a
rate-limited failure with retries left, the code waits `delay`,
decrements `retries`, multiplies the delay by 1.5 and loops; with no
retries left it returns the quota placeholder; on any other failure it
returns the generation-failed placeholder at once. -/
def genImageGo (call : Nat → CallRes) : Nat → Nat → Nat → RetryTrace
  | retries, delay, k =>
    match call k with
    | .image d => ⟨1, [], dataUrl d⟩
    | .err msg =>
      if isRateLimited msg then
        match retries with
        | 0 => ⟨1, [], quotaPlaceholder⟩
        | r + 1 =>
          let t := genImageGo call r (delay * 3 / 2) (k + 1)
          ⟨t.attempts + 1, delay :: t.delays, t.url⟩
      else ⟨1, [], failPlaceholder⟩

/-- generateCardImage: throws when the API key is missing, otherwise
runs the retry loop with 3 retries and a 10000 ms initial delay.  The
returned `Except` separates a thrown rejection from a returned URL. -/
def generateCardImage (hasKey : Bool) (call : Nat → CallRes) :
    Except String RetryTrace :=
  if hasKey then .ok (genImageGo call 3 10000 0)
  else .error "API Key is missing."

/-- First half of the Major Arcana request, the eleven names of the
`part1` string in generateDeckSectionMetadata (the code joins them with
commas into one request string). -/
def majorPart1 : List String :=
  ["0 The Fool", "I The Magician", "II The High Priestess",
   "III The Empress", "IV The Emperor", "V The Hierophant",
   "VI The Lovers", "VII The Chariot", "VIII Strength", "IX The Hermit",
   "X Wheel of Fortune"]

/-- Second half of the Major Arcana request, the eleven names of the
`part2` string. -/
def majorPart2 : List String :=
  ["XI Justice", "XII The Hanged Man", "XIII Death", "XIV Temperance",
   "XV The Devil", "XVI The Tower", "XVII The Star", "XVIII The Moon",
   "XIX The Sun", "XX Judgement", "XXI The World"]

/-- The fourteen card-rank templates of the `suitList` string. -/
def suitRanks : List String :=
  ["Ace", "Two", "Three", "Four", "Five", "Six", "Seven", "Eight",
   "Nine", "Ten", "Page", "Knight", "Queen", "King"]

/-- Names requested for a suit sub-request: each rank combined with the
section name, as in the `suitList` template literal. -/
def suitNames (s : DeckSection) : List String :=
  suitRanks.map (fun r => r ++ " of " ++ s.name)

/-- The ordered sub-requests generateDeckSectionMetadata issues for a
section: the Major Arcana is split into two halves, any other section
is requested in one batch. -/
def sectionBatches : DeckSection → List (List String)
  | .majorArcana => [majorPart1, majorPart2]
  | s => [suitNames s]

/-- Oracle for the metadata service: given the index of the call in the
run and the requested name list, produce the parsed card list or the
message of the error generateBatch would throw (covering request
failure, empty text, and JSON parse failure alike). -/
def MetaSvc : Type :=
  Nat → List String → Except String (List RawCard)

/-- Sequential execution of the metadata sub-requests: each batch is one
generateBatch call; the first failing call aborts the whole run and the
successful results are concatenated in request order.  The first
component counts the service calls actually issued.  (The fixed 1000 ms
pacing wait between the two Major Arcana batches is not tracked.) -/
def runBatches (svc : MetaSvc) : List (List String) → Nat →
    Nat × Except String (List RawCard)
  | [], k => (k, .ok [])
  | b :: rest, k =>
    match svc k b with
    | .error e => (k + 1, .error e)
    | .ok cards =>
      match runBatches svc rest (k + 1) with
      | (k2, .error e) => (k2, .error e)
      | (k2, .ok more) => (k2, .ok (cards ++ more))

/-- Id assignment and initial state of the final map in
generateDeckSectionMetadata: each raw entry becomes a Card whose id is
built from the section slug, the entry's position and the creation
timestamp, with no image and the loading flag set. -/
def assignIds (s : DeckSection) (ts : Nat) (raw : List RawCard) :
    List Card :=
  raw.mapIdx fun i r =>
    { id := s.slug ++ "-" ++ toString i ++ "-" ++ toString ts,
      name := r.name, description := r.description,
      uprightMeaning := r.uprightMeaning,
      reversedMeaning := r.reversedMeaning,
      visualPrompt := r.visualPrompt, imageUrl := none,
      isLoadingImage := true, sec := s }

/-- Re-thrown message of the catch block in generateDeckSectionMetadata:
`new Error(error.message || "Unknown API Error")`. -/
def wrapMetaErr (m : String) : String :=
  if m = "" then "Unknown API Error" else m

/-- generateDeckSectionMetadata: checks the API key, issues the
section's sub-requests in order, and on success assigns ids and initial
state; any sub-request failure aborts with the (re-wrapped) error.  The
first component is the number of service calls issued. -/
def generateDeckSectionMetadata (hasKey : Bool) (svc : MetaSvc)
    (s : DeckSection) (ts : Nat) : Nat × Except String (List Card) :=
  if hasKey then
    match runBatches svc (sectionBatches s) 0 with
    | (k, .error e) => (k, .error (wrapMetaErr e))
    | (k, .ok raw) => (k, .ok (assignIds s ts raw))
  else (0, .error "API Key is missing. Please check your .env file.")

/-- The deck: one list of cards per section name, as the record keyed by
the five `DeckSection` values in DeckGenerator. -/
structure Deck where
  majorArcana : List Card
  wands : List Card
  cups : List Card
  swords : List Card
  pentacles : List Card
deriving DecidableEq, Repr

/-- Contents of one section of the deck. -/
def Deck.get (d : Deck) : DeckSection → List Card
  | .majorArcana => d.majorArcana
  | .wands => d.wands
  | .cups => d.cups
  | .swords => d.swords
  | .pentacles => d.pentacles

/-- Replace one section of the deck, leaving the other four unchanged
(the `setDeck(prev => ({...prev, [section]: cards}))` updates). -/
def Deck.set (d : Deck) : DeckSection → List Card → Deck
  | .majorArcana, l => { d with majorArcana := l }
  | .wands, l => { d with wands := l }
  | .cups, l => { d with cups := l }
  | .swords, l => { d with swords := l }
  | .pentacles, l => { d with pentacles := l }

/-- The `SECTIONS` constant of DeckGenerator, in declaration order. -/
def SECTIONS : List DeckSection :=
  [.majorArcana, .wands, .cups, .swords, .pentacles]

/-- Update of the first card with the given id, embedding the
`results.findIndex(c => c.id === card.id)` lookup followed by the
assignment at that index (when no card matches, findIndex yields -1 and
nothing is changed). -/
def updateFirst (cid : String) (f : Card → Card) : List Card → List Card
  | [] => []
  | c :: rest =>
    if c.id == cid then f c :: rest else c :: updateFirst cid f rest

/-- Per-card effect of one settled image call in stage 2: on a returned
URL the card stores it and clears the loading flag (the `try` branch);
on a rejection only the loading flag is cleared (the `catch` branch). -/
def applyOutcomeCard (r : Except String RetryTrace) (c : Card) : Card :=
  match r with
  | .ok t => { c with imageUrl := some t.url, isLoadingImage := false }
  | .error _ => { c with isLoadingImage := false }

/-- One iteration's update of the shared `results` array. -/
def applyImageOutcome (cid : String) (r : Except String RetryTrace)
    (results : List Card) : List Card :=
  updateFirst cid (applyOutcomeCard r) results

/-- The sequential image loop of handleGenerateSection (CONCURRENCY is
1, so each batch is a single card): the cards of `toDo` are processed in
order; after each card the progress count `min total (i + 1)` is
published.  `imgSvc i` is the call oracle for the i-th card's
generateCardImage invocation.  Returns the final `results` array and
the published progress counts.  (The 4000 ms pacing wait between
iterations is not tracked.) -/
def stage2Go (hasKey : Bool) (imgSvc : Nat → Nat → CallRes)
    (total : Nat) : List Card → Nat → List Card → List Card × List Nat
  | [], _, results => (results, [])
  | card :: rest, i, results =>
    let results2 :=
      applyImageOutcome card.id (generateCardImage hasKey (imgSvc i))
        results
    let next := stage2Go hasKey imgSvc total rest (i + 1) results2
    (next.1, min total (i + 1) :: next.2)

/-- Stage 2 run over the cards produced by the metadata stage: both
`cardsToProcess` and the initial `results` are copies of the same
list. -/
def stage2 (hasKey : Bool) (imgSvc : Nat → Nat → CallRes) (total : Nat)
    (cards : List Card) : List Card × List Nat :=
  stage2Go hasKey imgSvc total cards 0 cards

/-- True when the theme fails the `!themeInput.trim()` guard of
handleGenerateSection, i.e. consists of whitespace only (trimming it
leaves the empty string, which is falsy). -/
def themeBlank (theme : String) : Bool :=
  theme.data.all Char.isWhitespace

/-- The fixed progress total of a section run:
`section === 'Major Arcana' ? 22 : 14`. -/
def totalCards (s : DeckSection) : Nat :=
  if s = .majorArcana then 22 else 14

/-- Observable outcome of one handleGenerateSection run: the deck after
the run, the error published by the run (none when no failure was
surfaced), the sequence of progress counts published, and the number of
metadata service calls issued. -/
structure RunResult where
  deck : Deck
  errorMsg : Option String
  progressSeq : List Nat
  metaCalls : Nat
deriving DecidableEq, Repr

/-- handleGenerateSection: an empty (all-blank) theme returns before
anything is published; otherwise the initial progress count 0 is
published and the metadata stage runs.  A metadata failure sets the
run-level error and ends the run with the deck unchanged; on success
the section is seeded with the placeholder cards and the image loop
rewrites it, publishing one progress count per card.  Stage-2 outcomes
never set the run-level error. -/
def handleGenerateSection (dk : Deck) (s : DeckSection) (theme : String)
    (hasKey : Bool) (metaSvc : MetaSvc)
    (imgSvc : Nat → Nat → CallRes) (ts : Nat) : RunResult :=
  if themeBlank theme then ⟨dk, none, [], 0⟩
  else
    match generateDeckSectionMetadata hasKey metaSvc s ts with
    | (k, .error e) => ⟨dk, some ("Generation failed: " ++ e), [0], k⟩
    | (k, .ok cards) =>
      let r := stage2 hasKey imgSvc (totalCards s) cards
      ⟨dk.set s r.1, none, 0 :: r.2, k⟩

/-- Observable outcome of one regenerateImage invocation: the deck after
the run and the resolved instruction string passed to the image call
(none when no call was issued). -/
structure RegenResult where
  deck : Deck
  calledInstruction : Option String
deriving DecidableEq, Repr

/-- Linear scan of the five sections for the owning section of a card
id (the `for (const s of SECTIONS)` loop of regenerateImage). -/
def findSec (dk : Deck) (cardId : String) : Option DeckSection :=
  SECTIONS.find? (fun s => (dk.get s).any (fun c => c.id == cardId))

/-- regenerateImage: locate the owning section; when the id is unknown,
return with nothing changed and no call issued.  Otherwise mark the
card loading, call generateCardImage with the base instruction extended
by the uniqueness token (` random seed ${Math.random()}`, the sampled
value rendered as the string `rand`), and update the card in place —
storing the URL on success, or only clearing the loading flag when the
call rejected. -/
def regenerateImage (dk : Deck) (cardId baseInstruction : String)
    (hasKey : Bool) (rand : String) (call : Nat → CallRes) :
    RegenResult :=
  match findSec dk cardId with
  | none => ⟨dk, none⟩
  | some s =>
    let d1 := dk.set s ((dk.get s).map fun c =>
      if c.id == cardId then { c with isLoadingImage := true } else c)
    let resolved := baseInstruction ++ " random seed " ++ rand
    match generateCardImage hasKey call with
    | .ok t =>
      ⟨d1.set s ((d1.get s).map fun c =>
        if c.id == cardId then
          { c with imageUrl := some t.url, isLoadingImage := false }
        else c), some resolved⟩
    | .error _ =>
      ⟨d1.set s ((d1.get s).map fun c =>
        if c.id == cardId then { c with isLoadingImage := false }
        else c), some resolved⟩

/-- The final state the image loop gives to the card at position `i`
when the cards' ids are pairwise distinct. -/
def expectedCard (hasKey : Bool) (imgSvc : Nat → Nat → CallRes)
    (i : Nat) (c : Card) : Card :=
  applyOutcomeCard (generateCardImage hasKey (imgSvc i)) c

/-- A deck with all five sections empty, the initial `deck` state. -/
def emptyDeck : Deck := ⟨[], [], [], [], []⟩

/-- Image call that always fails with a non-quota (fatal) message. -/
def fatalCall : Nat → CallRes := fun _ => .err "blocked by content policy"

/-- Image call that always fails with a quota message. -/
def quotaCall : Nat → CallRes := fun _ => .err "429 RESOURCE_EXHAUSTED"

/-- Metadata service that always fails with a quota message. -/
def quotaMetaSvc : MetaSvc := fun _ _ => .error "429 RESOURCE_EXHAUSTED"

/-- Sample raw metadata entry with the given name. -/
def sampleRaw (n : String) : RawCard := ⟨n, "desc", "up", "rev", "vp"⟩

/-- Metadata service that answers every request with a single entry. -/
def oneCardMetaSvc : MetaSvc := fun _ _ => .ok [sampleRaw "Ace of Wands"]

/-- Metadata service that answers every request with two entries. -/
def twoCardMetaSvc : MetaSvc :=
  fun _ _ => .ok [sampleRaw "Ace of Wands", sampleRaw "Two of Wands"]

/-- Image oracle whose first card fails fatally and whose other cards
succeed on their first attempt. -/
def mixedImgSvc : Nat → Nat → CallRes :=
  fun i _ => if i = 0 then .err "blocked by content policy"
             else .image "IMG"

/-- Image oracle that succeeds on every first attempt. -/
def okImgSvc : Nat → Nat → CallRes := fun _ _ => .image "IMG"

/-- A deck whose Wands section holds the single card produced from
`oneCardMetaSvc`. -/
def sampleDeck : Deck :=
  ⟨[], assignIds .wands 0 [sampleRaw "Ace of Wands"], [], [], []⟩

/-- Metadata service that answers every request with one entry per
requested name. -/
def echoMetaSvc : MetaSvc := fun _ b => .ok (b.map sampleRaw)

/-- Metadata service whose first call succeeds with one entry and whose
later calls fail. -/
def failSecondMetaSvc : MetaSvc :=
  fun n _ => if n = 0 then .ok [sampleRaw "X"] else .error "boom"

end Tarot

namespace Tarot

/-! ## Supporting lemmas -/

/-- A settled image outcome never changes a card's id. -/
theorem id_applyOutcomeCard (r : Except String RetryTrace) (c : Card) :
    (applyOutcomeCard r c).id = c.id := by
  cases r <;> rfl

/-- When the API key is present and the first attempt fails with a
message not classified rate-limited, generateCardImage makes exactly
one call, waits never, and returns the generation-failed placeholder. -/
theorem genImage_fatalFirst (call : Nat → CallRes) (m : String)
    (h0 : call 0 = CallRes.err m) (hf : isRateLimited m = false) :
    generateCardImage true call = .ok ⟨1, [], failPlaceholder⟩ := by
  simp [generateCardImage, genImageGo, h0, hf]

/-- When the first attempt returns inline image data, generateCardImage
makes exactly one call and returns the data URL. -/
theorem genImage_successFirst (call : Nat → CallRes) (d : String)
    (h0 : call 0 = CallRes.image d) :
    generateCardImage true call = .ok ⟨1, [], dataUrl d⟩ := by
  simp [generateCardImage, genImageGo, h0]

/-- When every attempt fails with a rate-limited message,
generateCardImage makes exactly four calls, waits 10000, 15000 and
22500 ms between them, and returns the quota placeholder. -/
theorem genImage_rateLimitedAll (call : Nat → CallRes)
    (h : ∀ k, ∃ m, call k = CallRes.err m ∧ isRateLimited m = true) :
    generateCardImage true call
      = .ok ⟨4, [10000, 15000, 22500], quotaPlaceholder⟩ := by
  obtain ⟨m0, h0, r0⟩ := h 0
  obtain ⟨m1, h1, r1⟩ := h 1
  obtain ⟨m2, h2, r2⟩ := h 2
  obtain ⟨m3, h3, r3⟩ := h 3
  simp [generateCardImage, genImageGo, h0, h1, h2, h3, r0, r1, r2, r3]

/-- updateFirst rewrites exactly the first card carrying the id when
the cards before it all carry other ids. -/
theorem updateFirst_append (cid : String) (f : Card → Card)
    (done : List Card) (hdone : ∀ d ∈ done, d.id ≠ cid)
    (c : Card) (hc : c.id = cid) (rest : List Card) :
    updateFirst cid f (done ++ c :: rest) = done ++ f c :: rest := by
  induction done with
  | nil => simp [updateFirst, hc]
  | cons d ds ih =>
    have hd : d.id ≠ cid := hdone d (by simp)
    simp only [List.cons_append, updateFirst, beq_iff_eq, if_neg hd]
    exact congrArg (List.cons d) (ih (fun x hx => hdone x (by simp [hx])))

/-- Invariant of the image loop: with pairwise distinct ids, after
processing the remaining cards each of them holds the outcome of its
own image call, the processed prefix is untouched, and one progress
count is published per card. -/
theorem stage2Go_spec (hasKey : Bool) (imgSvc : Nat → Nat → CallRes)
    (total : Nat) :
    ∀ (rest done : List Card), ((done ++ rest).map Card.id).Nodup →
    stage2Go hasKey imgSvc total rest done.length (done ++ rest) =
      (done ++ rest.mapIdx
         (fun j c => expectedCard hasKey imgSvc (done.length + j) c),
       (List.range rest.length).map
         (fun j => min total (done.length + j + 1))) := by
  intro rest
  induction rest with
  | nil => intro done h; simp [stage2Go]
  | cons card rest ih =>
    intro done h
    have h' := h
    rw [List.map_append, List.nodup_append] at h'
    obtain ⟨-, -, hdisj⟩ := h'
    have hdone : ∀ d ∈ done, d.id ≠ card.id := by
      intro d hd heq
      exact hdisj (List.mem_map_of_mem Card.id hd) (by rw [heq]; simp)
    have hupd : applyImageOutcome card.id
        (generateCardImage hasKey (imgSvc done.length))
        (done ++ card :: rest)
        = done ++ expectedCard hasKey imgSvc done.length card :: rest := by
      unfold applyImageOutcome expectedCard
      exact updateFirst_append _ _ done hdone card rfl rest
    have hid : (expectedCard hasKey imgSvc done.length card).id = card.id :=
      id_applyOutcomeCard _ _
    have hn2 : (((done ++ [expectedCard hasKey imgSvc done.length card])
        ++ rest).map Card.id).Nodup := by
      simpa [hid] using h
    have hrec := ih (done ++ [expectedCard hasKey imgSvc done.length card]) hn2
    simp only [stage2Go]
    rw [hupd]
    rw [show done ++ expectedCard hasKey imgSvc done.length card :: rest
        = (done ++ [expectedCard hasKey imgSvc done.length card]) ++ rest
        from by simp]
    rw [show done.length + 1
        = (done ++ [expectedCard hasKey imgSvc done.length card]).length
        from by simp]
    rw [hrec]
    simp [List.mapIdx_cons, List.range_succ_eq_map, List.map_map,
      Function.comp_def, Nat.add_assoc, Nat.add_comm, Nat.add_left_comm]

/-- The image loop over a metadata list with pairwise distinct ids:
each card ends holding its own call's outcome and the published counts
are `min total (j + 1)` for `j` below the card count. -/
theorem stage2_spec (hasKey : Bool) (imgSvc : Nat → Nat → CallRes)
    (total : Nat) (cards : List Card)
    (hn : (cards.map Card.id).Nodup) :
    stage2 hasKey imgSvc total cards =
      (cards.mapIdx (fun j c => expectedCard hasKey imgSvc j c),
       (List.range cards.length).map (fun j => min total (j + 1))) := by
  have h := stage2Go_spec hasKey imgSvc total cards [] (by simpa using hn)
  simpa [stage2] using h

/-- Reading back the section just replaced in the deck. -/
theorem Deck.get_set (d : Deck) (s : DeckSection) (l : List Card) :
    (d.set s l).get s = l := by
  cases s <;> rfl

end Tarot

namespace Tarot

/-! ## Metadata-stage lemmas -/

/-- When every successful metadata response carries exactly one entry
per requested name, a successful batch run returns as many entries as
the batch sizes sum to. -/
theorem runBatches_ok_length (svc : MetaSvc)
    (hsvc : ∀ n b r, svc n b = .ok r → r.length = b.length) :
    ∀ (batches : List (List String)) (k0 k : Nat) (raw : List RawCard),
    runBatches svc batches k0 = (k, .ok raw) →
    raw.length = (batches.map List.length).sum := by
  intro batches
  induction batches with
  | nil =>
    intro k0 k raw h
    simp only [runBatches, Prod.mk.injEq] at h
    obtain ⟨-, h⟩ := h
    obtain rfl : raw = [] := by injection h.symm
    simp
  | cons b rest ih =>
    intro k0 k raw h
    simp only [runBatches] at h
    cases hb : svc k0 b with
    | error e => rw [hb] at h; simp at h
    | ok cards =>
      rw [hb] at h
      rcases hr : runBatches svc rest (k0 + 1) with ⟨k2, res2⟩
      rw [hr] at h
      cases res2 with
      | error e => simp at h
      | ok more =>
        simp only [Prod.mk.injEq, Except.ok.injEq] at h
        obtain ⟨-, h⟩ := h
        subst h
        simp [List.length_append, hsvc _ _ _ hb, ih _ _ _ hr]

/-- Assigning ids and initial state preserves the entry names in
order. -/
theorem assignIds_map_name (s : DeckSection) (ts : Nat)
    (raw : List RawCard) :
    (assignIds s ts raw).map Card.name = raw.map RawCard.name := by
  apply List.ext_getElem?
  intro i
  simp only [assignIds, List.getElem?_map, List.getElem?_mapIdx,
    Option.map_map]
  cases raw[i]? <;> rfl

/-- A single-batch run issues exactly one service call. -/
theorem runBatches_single_calls (svc : MetaSvc) (b : List String)
    (k0 : Nat) : (runBatches svc [b] k0).1 = k0 + 1 := by
  simp only [runBatches]
  cases svc k0 b <;> simp [runBatches]

/-- The metadata stage issues exactly as many service calls as the
batch run does. -/
theorem generateDeckSectionMetadata_calls (svc : MetaSvc)
    (s : DeckSection) (ts : Nat) :
    (generateDeckSectionMetadata true svc s ts).1
      = (runBatches svc (sectionBatches s) 0).1 := by
  unfold generateDeckSectionMetadata
  rcases h : runBatches svc (sectionBatches s) 0 with ⟨k, res⟩
  cases res <;> simp

/-- When every successful metadata response carries exactly one entry
per requested name, a successful metadata stage yields as many items as
the batch sizes sum to, i.e. the section's fixed cardinality. -/
theorem metadata_count_exact (svc : MetaSvc) (s : DeckSection)
    (ts k : Nat) (items : List Card)
    (hsvc : ∀ n b r, svc n b = .ok r → r.length = b.length)
    (hk : generateDeckSectionMetadata true svc s ts = (k, .ok items)) :
    items.length = totalCards s := by
  unfold generateDeckSectionMetadata at hk
  rcases hx : runBatches svc (sectionBatches s) 0 with ⟨k0, res⟩
  rw [hx] at hk
  cases res with
  | error e => simp at hk
  | ok raw =>
    simp only [if_true, Prod.mk.injEq, Except.ok.injEq] at hk
    obtain ⟨-, hk⟩ := hk
    subst hk
    have hlen := runBatches_ok_length svc hsvc _ _ _ _ hx
    cases s <;>
      simp_all [assignIds, List.length_mapIdx, sectionBatches, totalCards,
        suitNames, majorPart1, majorPart2, suitRanks]

/-! ## Claims about the image retry policy (C1, C2) -/

/-- C1 (counterexample): with a first attempt failing on a message not
classified rate-limited (a Fatal failure), generateCardImage does not
reject with the original error: it returns the generation-failed
placeholder, a substitute value. -/
theorem claimC1_cex :
    fatalCall 0 = CallRes.err "blocked by content policy" ∧
    isRateLimited "blocked by content policy" = false ∧
    generateCardImage true fatalCall = .ok ⟨1, [], failPlaceholder⟩ ∧
    (Except.ok ⟨1, [], failPlaceholder⟩ : Except String RetryTrace)
      ≠ .error "blocked by content policy" :=
  ⟨rfl, by decide, rfl, fun h => Except.noConfusion h⟩

/-- C1 (amended): on a first attempt failing with a Fatal (non-quota)
classification, generateCardImage attempts the operation exactly once,
inserts no delay, and returns the generation-failed placeholder value
instead of rejecting with the error. -/
theorem claimC1_fatal_single_attempt (call : Nat → CallRes) (m : String)
    (h0 : call 0 = CallRes.err m) (hf : isRateLimited m = false) :
    generateCardImage true call = .ok ⟨1, [], failPlaceholder⟩ :=
  genImage_fatalFirst call m h0 hf

/-- C1 (witness): the amended claim at a concrete fatal failure. -/
theorem claimC1_witness :
    generateCardImage true fatalCall = .ok ⟨1, [], failPlaceholder⟩ :=
  claimC1_fatal_single_attempt fatalCall "blocked by content policy"
    rfl (by decide)

/-- C2: when every attempt fails with a rate-limited (quota/429)
classification, generateCardImage attempts the call exactly 4 times
(initial plus 3 retries), waits 10000, 15000 and 22500 ms between
successive attempts (each 1.5 times the previous), and returns the
quota placeholder instead of failing the caller. -/
theorem claimC2_rateLimited_schedule (call : Nat → CallRes)
    (h : ∀ k, ∃ m, call k = CallRes.err m ∧ isRateLimited m = true) :
    generateCardImage true call
      = .ok ⟨4, [10000, 15000, 22500], quotaPlaceholder⟩ :=
  genImage_rateLimitedAll call h

/-- C2 (witness): the retry schedule at a concrete quota failure. -/
theorem claimC2_witness :
    isRateLimited "429 RESOURCE_EXHAUSTED" = true ∧
    generateCardImage true quotaCall
      = .ok ⟨4, [10000, 15000, 22500], quotaPlaceholder⟩ :=
  ⟨by decide, claimC2_rateLimited_schedule quotaCall
    (fun _ => ⟨"429 RESOURCE_EXHAUSTED", rfl, by decide⟩)⟩

/-! ## Claims about the metadata stage (C3, C4, C5) -/

/-- C3 (counterexample): a metadata sub-request failing with a
rate-limited (quota/429) message is not re-attempted: the stage issues
exactly one call and aborts with the error. -/
theorem claimC3_cex :
    isRateLimited "429 RESOURCE_EXHAUSTED" = true ∧
    generateDeckSectionMetadata true quotaMetaSvc .wands 0
      = (1, .error "429 RESOURCE_EXHAUSTED") :=
  ⟨by decide, rfl⟩

/-- C3 (amended): metadata sub-requests run without any retry wrapping:
a first sub-request failing for any reason (rate-limited included) is
attempted exactly once and the stage aborts with that error. -/
theorem claimC3_no_metadata_retry (svc : MetaSvc) (s : DeckSection)
    (ts : Nat) (e : String)
    (h : svc 0 ((sectionBatches s).headD []) = .error e) :
    generateDeckSectionMetadata true svc s ts
      = (1, .error (wrapMetaErr e)) := by
  cases s <;>
    simp_all [generateDeckSectionMetadata, sectionBatches, runBatches]

/-- C3 (witness): the amended claim at a concrete quota failure. -/
theorem claimC3_witness :
    quotaMetaSvc 0 ((sectionBatches .wands).headD [])
      = .error "429 RESOURCE_EXHAUSTED" ∧
    generateDeckSectionMetadata true quotaMetaSvc .wands 1
      = (1, .error (wrapMetaErr "429 RESOURCE_EXHAUSTED")) :=
  ⟨rfl, claimC3_no_metadata_retry quotaMetaSvc .wands 1 _ rfl⟩

/-- C4 (counterexample): when the service returns a single entry for
the 14-card Wands request, the metadata stage succeeds with exactly one
item, not the fixed cardinality 14: the count is not enforced. -/
theorem claimC4_cex :
    (generateDeckSectionMetadata true oneCardMetaSvc .wands 0).2.map
        List.length = .ok 1 ∧
    totalCards .wands = 14 ∧ (1 : Nat) ≠ 14 :=
  ⟨rfl, rfl, by decide⟩

/-- C4 (amended): the number of items produced by a successful metadata
stage equals the section's fixed cardinality (22 or 14) provided every
sub-request returns exactly one entry per requested name; with other
response sizes the item count follows the response, unchecked. -/
theorem claimC4_count_when_exact (svc : MetaSvc) (s : DeckSection)
    (ts k : Nat) (items : List Card)
    (hsvc : ∀ n b r, svc n b = .ok r → r.length = b.length)
    (hk : generateDeckSectionMetadata true svc s ts = (k, .ok items)) :
    items.length = totalCards s :=
  metadata_count_exact svc s ts k items hsvc hk

/-- C4 (witness): the amended claim at a concrete exact-count
service. -/
theorem claimC4_witness :
    (assignIds .majorArcana 0
      (majorPart1.map sampleRaw ++ majorPart2.map sampleRaw)).length
      = totalCards .majorArcana :=
  claimC4_count_when_exact echoMetaSvc .majorArcana 0 2 _
    (fun n b r h => by
      simp only [echoMetaSvc, Except.ok.injEq] at h
      simp [← h])
    rfl

/-- C5: the Major Arcana metadata is obtained through exactly two
sub-requests of 11 names each, issued in canonical order, and the
final list is the concatenation of the first batch's entries followed
by the second batch's (name order preserved); every other section
issues exactly one sub-request. -/
theorem claimC5_major_split (svc : MetaSvc) (ts : Nat)
    (l1 l2 : List RawCard)
    (h1 : svc 0 majorPart1 = .ok l1) (h2 : svc 1 majorPart2 = .ok l2) :
    sectionBatches .majorArcana = [majorPart1, majorPart2] ∧
    majorPart1.length = 11 ∧ majorPart2.length = 11 ∧
    generateDeckSectionMetadata true svc .majorArcana ts
      = (2, .ok (assignIds .majorArcana ts (l1 ++ l2))) ∧
    (assignIds .majorArcana ts (l1 ++ l2)).map Card.name
      = l1.map RawCard.name ++ l2.map RawCard.name ∧
    ∀ s : DeckSection, s ≠ .majorArcana →
      sectionBatches s = [suitNames s] ∧
      ∀ ts2, (generateDeckSectionMetadata true svc s ts2).1 = 1 := by
  refine ⟨rfl, by decide, by decide, ?_, ?_, ?_⟩
  · simp [generateDeckSectionMetadata, sectionBatches, runBatches, h1, h2]
  · rw [assignIds_map_name]; exact List.map_append RawCard.name l1 l2
  · intro s hs
    refine ⟨by cases s <;> simp_all [sectionBatches], ?_⟩
    intro ts2
    rw [generateDeckSectionMetadata_calls]
    have hb : sectionBatches s = [suitNames s] := by
      cases s <;> simp_all [sectionBatches]
    rw [hb, runBatches_single_calls]

/-- C5 (witness): the split at a concrete service. -/
theorem claimC5_witness :
    echoMetaSvc 0 majorPart1 = .ok (majorPart1.map sampleRaw) ∧
    generateDeckSectionMetadata true echoMetaSvc .majorArcana 3
      = (2, .ok (assignIds .majorArcana 3
          (majorPart1.map sampleRaw ++ majorPart2.map sampleRaw))) :=
  ⟨rfl, (claimC5_major_split echoMetaSvc 3 _ _ rfl rfl).2.2.2.1⟩

end Tarot

namespace Tarot

/-! ## Claims about the section run (C6, C7, C8) -/

/-- C6: when one card's image call fails with a Fatal classification
and every other card's call succeeds, the section run completes: every
item ends with its loading flag cleared, the failed item carries the
fallback placeholder, every other item carries its produced image, and
no run-level error is surfaced. -/
theorem claimC6_single_fatal_isolated
    (dk : Deck) (s : DeckSection) (theme : String) (metaSvc : MetaSvc)
    (imgSvc : Nat → Nat → CallRes) (ts k f : Nat) (cards : List Card)
    (m : String)
    (htheme : themeBlank theme = false)
    (hmeta : generateDeckSectionMetadata true metaSvc s ts
      = (k, Except.ok cards))
    (hn : (cards.map Card.id).Nodup)
    (hfatal : imgSvc f 0 = CallRes.err m)
    (hm : isRateLimited m = false)
    (hok : ∀ j, j < cards.length → j ≠ f →
      ∃ d, imgSvc j 0 = CallRes.image d) :
    (handleGenerateSection dk s theme true metaSvc imgSvc ts).errorMsg
      = none ∧
    ((handleGenerateSection dk s theme true metaSvc imgSvc ts).deck.get
        s).length = cards.length ∧
    ∀ j, j < cards.length →
      ∃ c, ((handleGenerateSection dk s theme true metaSvc imgSvc
          ts).deck.get s)[j]? = some c ∧
        c.isLoadingImage = false ∧
        (j = f → c.imageUrl = some failPlaceholder) ∧
        (j ≠ f → ∃ d, imgSvc j 0 = CallRes.image d ∧
          c.imageUrl = some (dataUrl d)) := by
  have hrun : handleGenerateSection dk s theme true metaSvc imgSvc ts
      = ⟨dk.set s (stage2 true imgSvc (totalCards s) cards).1, none,
         0 :: (stage2 true imgSvc (totalCards s) cards).2, k⟩ := by
    simp [handleGenerateSection, htheme, hmeta]
  have hst := stage2_spec true imgSvc (totalCards s) cards hn
  rw [hrun]
  refine ⟨rfl, ?_, ?_⟩
  · simp [Deck.get_set, hst, List.length_mapIdx]
  · intro j hj
    refine ⟨expectedCard true imgSvc j (cards.get ⟨j, hj⟩), ?_, ?_, ?_, ?_⟩
    · simp only [RunResult.deck, Deck.get_set, hst]
      simp [List.getElem?_mapIdx, List.getElem?_eq_getElem hj,
        List.get_eq_getElem]
    · by_cases hjf : j = f
      · subst hjf
        have hg := genImage_fatalFirst (imgSvc j) m hfatal hm
        simp [expectedCard, applyOutcomeCard, hg]
      · obtain ⟨d, hd⟩ := hok j hj hjf
        have hg := genImage_successFirst (imgSvc j) d hd
        simp [expectedCard, applyOutcomeCard, hg]
    · intro hjf
      subst hjf
      have hg := genImage_fatalFirst (imgSvc j) m hfatal hm
      simp [expectedCard, applyOutcomeCard, hg]
    · intro hjf
      obtain ⟨d, hd⟩ := hok j hj hjf
      have hg := genImage_successFirst (imgSvc j) d hd
      exact ⟨d, hd, by simp [expectedCard, applyOutcomeCard, hg]⟩

/-- C6 (witness): a two-card section whose first image call is fatal
and whose second succeeds. -/
theorem claimC6_witness :
    (handleGenerateSection emptyDeck .wands "t" true twoCardMetaSvc
        mixedImgSvc 0).errorMsg = none ∧
    ((handleGenerateSection emptyDeck .wands "t" true twoCardMetaSvc
        mixedImgSvc 0).deck.get .wands).length
      = (assignIds .wands 0 [sampleRaw "Ace of Wands",
          sampleRaw "Two of Wands"]).length ∧
    ∀ j, j < (assignIds .wands 0 [sampleRaw "Ace of Wands",
        sampleRaw "Two of Wands"]).length →
      ∃ c, ((handleGenerateSection emptyDeck .wands "t" true
          twoCardMetaSvc mixedImgSvc 0).deck.get .wands)[j]? = some c ∧
        c.isLoadingImage = false ∧
        (j = 0 → c.imageUrl = some failPlaceholder) ∧
        (j ≠ 0 → ∃ d, mixedImgSvc j 0 = CallRes.image d ∧
          c.imageUrl = some (dataUrl d)) :=
  claimC6_single_fatal_isolated emptyDeck .wands "t" twoCardMetaSvc
    mixedImgSvc 0 1 0
    (assignIds .wands 0 [sampleRaw "Ace of Wands",
      sampleRaw "Two of Wands"])
    "blocked by content policy" (by decide) rfl (by decide) rfl
    (by decide)
    (fun j hj hne => ⟨"IMG", by simp [mixedImgSvc, hne]⟩)

/-- C7: when the second Major Arcana sub-request fails, the whole
metadata stage fails with the error (the first batch is discarded), the
run surfaces the error, the deck is left unchanged, and only the
initial progress count was published. -/
theorem claimC7_no_partial_metadata
    (dk : Deck) (theme : String) (svc : MetaSvc)
    (imgSvc : Nat → Nat → CallRes) (ts : Nat)
    (l1 : List RawCard) (e : String)
    (htheme : themeBlank theme = false)
    (h1 : svc 0 majorPart1 = .ok l1)
    (h2 : svc 1 majorPart2 = .error e) :
    generateDeckSectionMetadata true svc .majorArcana ts
      = (2, .error (wrapMetaErr e)) ∧
    handleGenerateSection dk .majorArcana theme true svc imgSvc ts
      = ⟨dk, some ("Generation failed: " ++ wrapMetaErr e), [0], 2⟩ := by
  have hm : generateDeckSectionMetadata true svc .majorArcana ts
      = (2, .error (wrapMetaErr e)) := by
    simp [generateDeckSectionMetadata, sectionBatches, runBatches, h1, h2]
  exact ⟨hm, by simp [handleGenerateSection, htheme, hm]⟩

/-- C7 (witness): a concrete service failing on the second batch. -/
theorem claimC7_witness :
    failSecondMetaSvc 1 majorPart2 = .error "boom" ∧
    handleGenerateSection sampleDeck .majorArcana "t" true
        failSecondMetaSvc okImgSvc 0
      = ⟨sampleDeck, some ("Generation failed: " ++ wrapMetaErr "boom"),
         [0], 2⟩ :=
  ⟨rfl, (claimC7_no_partial_metadata sampleDeck "t" failSecondMetaSvc
    okImgSvc 0 [sampleRaw "X"] "boom" (by decide) rfl rfl).2⟩

/-- The published counts `0, 1, ..., t` of a run over exactly `t`
items: non-decreasing, bounded by `t`, and reaching `t` exactly once,
at the last position. -/
theorem progressList_props (t : Nat) (hpos : 0 < t) :
    (0 :: (List.range t).map (fun j => min t (j + 1))).Chain' (· ≤ ·) ∧
    (∀ x ∈ 0 :: (List.range t).map (fun j => min t (j + 1)), x ≤ t) ∧
    (0 :: (List.range t).map (fun j => min t (j + 1))).count t = 1 ∧
    (0 :: (List.range t).map (fun j => min t (j + 1))).getLast?
      = some t := by
  have hmap : (List.range t).map (fun j => min t (j + 1))
      = (List.range t).map (fun j => j + 1) :=
    List.map_congr_left (fun j hj =>
      min_eq_right (Nat.succ_le_of_lt (List.mem_range.mp hj)))
  rw [hmap]
  obtain ⟨u, rfl⟩ : ∃ u, t = u + 1 := ⟨t - 1, by omega⟩
  refine ⟨?_, ?_, ?_, ?_⟩
  · apply List.Pairwise.chain'
    apply List.pairwise_cons.mpr
    refine ⟨fun x _ => Nat.zero_le x, ?_⟩
    exact (List.pairwise_lt_range _).map _
      (fun a b h => Nat.succ_le_succ (Nat.le_of_lt h))
  · intro x hx
    rcases List.mem_cons.mp hx with rfl | hx
    · exact Nat.zero_le _
    · obtain ⟨j, hj, rfl⟩ := List.mem_map.mp hx
      exact Nat.succ_le_of_lt (List.mem_range.mp hj)
  · have h1 : ((List.range (u + 1)).map (fun j => j + 1)).count (u + 1)
        = (List.range (u + 1)).count u :=
      List.count_map_of_injective _ _ (fun a b hab => by omega) u
    simp [List.count_cons, h1,
      List.count_eq_one_of_mem (List.nodup_range _)
        (List.mem_range.mpr (Nat.lt_succ_self u))]
  · rw [List.range_succ, List.map_append]
    simp only [List.map_cons, List.map_nil]
    rw [show (0 : Nat) :: ((List.range u).map (fun j => j + 1) ++ [u + 1])
        = ((0 :: (List.range u).map (fun j => j + 1)) ++ [u + 1])
      from rfl]
    exact List.getLast?_concat _

/-- C8 (counterexample): a run whose metadata stage returns a single
item for a 14-card section publishes the counts 0, 1 and never reaches
the section's total 14, so the completed-count does not equal the total
exactly once. -/
theorem claimC8_cex :
    (handleGenerateSection emptyDeck .wands "t" true oneCardMetaSvc
        okImgSvc 0).progressSeq = [0, 1] ∧
    totalCards .wands = 14 ∧
    (handleGenerateSection emptyDeck .wands "t" true oneCardMetaSvc
        okImgSvc 0).progressSeq.count 14 = 0 :=
  ⟨rfl, rfl, rfl⟩

/-- C8 (amended): provided the metadata stage returned exactly the
section's expected number of items, the published completed-counts of
the run are non-decreasing, never exceed the section's total, and equal
the total exactly once, at the final update. -/
theorem claimC8_progress (dk : Deck) (s : DeckSection) (theme : String)
    (metaSvc : MetaSvc) (imgSvc : Nat → Nat → CallRes) (ts k : Nat)
    (cards : List Card)
    (htheme : themeBlank theme = false)
    (hmeta : generateDeckSectionMetadata true metaSvc s ts
      = (k, Except.ok cards))
    (hn : (cards.map Card.id).Nodup)
    (hcount : cards.length = totalCards s) :
    (handleGenerateSection dk s theme true metaSvc imgSvc
        ts).progressSeq.Chain' (· ≤ ·) ∧
    (∀ x ∈ (handleGenerateSection dk s theme true metaSvc imgSvc
        ts).progressSeq, x ≤ totalCards s) ∧
    (handleGenerateSection dk s theme true metaSvc imgSvc
        ts).progressSeq.count (totalCards s) = 1 ∧
    (handleGenerateSection dk s theme true metaSvc imgSvc
        ts).progressSeq.getLast? = some (totalCards s) := by
  have hpos : 0 < totalCards s := by
    unfold totalCards; split <;> omega
  have hst := stage2_spec true imgSvc (totalCards s) cards hn
  have hrun : (handleGenerateSection dk s theme true metaSvc imgSvc
      ts).progressSeq
      = 0 :: (List.range cards.length).map
          (fun j => min (totalCards s) (j + 1)) := by
    simp [handleGenerateSection, htheme, hmeta, hst]
  rw [hrun, hcount]
  exact progressList_props (totalCards s) hpos

/-- C8 (witness): the amended claim over a full 14-card Wands run. -/
theorem claimC8_witness :
    (handleGenerateSection emptyDeck .wands "t" true echoMetaSvc
        okImgSvc 5).progressSeq.Chain' (· ≤ ·) ∧
    (∀ x ∈ (handleGenerateSection emptyDeck .wands "t" true echoMetaSvc
        okImgSvc 5).progressSeq, x ≤ totalCards .wands) ∧
    (handleGenerateSection emptyDeck .wands "t" true echoMetaSvc
        okImgSvc 5).progressSeq.count (totalCards .wands) = 1 ∧
    (handleGenerateSection emptyDeck .wands "t" true echoMetaSvc
        okImgSvc 5).progressSeq.getLast? = some (totalCards .wands) :=
  claimC8_progress emptyDeck .wands "t" echoMetaSvc okImgSvc 5 1
    (assignIds .wands 5 ((suitNames .wands).map sampleRaw))
    (by decide) rfl (by decide) (by decide)

/-! ## Claims about single-item regeneration (C9, C10) -/

/-- When the card id is present in some section, regenerateImage passes
the base instruction extended by the uniqueness token to the image
call. -/
theorem regen_calledInstruction (dk : Deck) (cid p : String)
    (hk : Bool) (r : String) (call : Nat → CallRes)
    (h : (findSec dk cid).isSome) :
    (regenerateImage dk cid p hk r call).calledInstruction
      = some (p ++ " random seed " ++ r) := by
  obtain ⟨s, hs⟩ := Option.isSome_iff_exists.mp h
  unfold regenerateImage
  rw [hs]
  cases generateCardImage hk call <;> rfl

/-- C9: two regenerations of an existing item with the same base
instruction pass resolved instruction strings that both extend the base
instruction with the uniqueness token, and are distinct whenever the
sampled token values differ. -/
theorem claimC9_distinct_instructions (d1 d2 : Deck)
    (cid p r1 r2 : String) (k1 k2 : Bool)
    (call1 call2 : Nat → CallRes)
    (h1 : (findSec d1 cid).isSome) (h2 : (findSec d2 cid).isSome)
    (hr : r1 ≠ r2) :
    (regenerateImage d1 cid p k1 r1 call1).calledInstruction
      = some (p ++ " random seed " ++ r1) ∧
    (regenerateImage d2 cid p k2 r2 call2).calledInstruction
      = some (p ++ " random seed " ++ r2) ∧
    (regenerateImage d1 cid p k1 r1 call1).calledInstruction
      ≠ (regenerateImage d2 cid p k2 r2 call2).calledInstruction := by
  have e1 := regen_calledInstruction d1 cid p k1 r1 call1 h1
  have e2 := regen_calledInstruction d2 cid p k2 r2 call2 h2
  refine ⟨e1, e2, ?_⟩
  rw [e1, e2]
  intro h
  apply hr
  have h' := Option.some.inj h
  have hd := congrArg String.data h'
  simp only [String.data_append, List.append_assoc] at hd
  exact String.ext (List.append_cancel_left (List.append_cancel_left hd))

/-- C9 (witness): two concrete regenerations of the same card with
distinct token values. -/
theorem claimC9_witness :
    (findSec sampleDeck "wands-0-0").isSome ∧
    ("0.1" : String) ≠ "0.2" ∧
    (regenerateImage sampleDeck "wands-0-0" "vp" true "0.1"
        fatalCall).calledInstruction
      = some ("vp" ++ " random seed " ++ "0.1") ∧
    (regenerateImage sampleDeck "wands-0-0" "vp" true "0.2"
        fatalCall).calledInstruction
      = some ("vp" ++ " random seed " ++ "0.2") ∧
    (regenerateImage sampleDeck "wands-0-0" "vp" true "0.1"
        fatalCall).calledInstruction
      ≠ (regenerateImage sampleDeck "wands-0-0" "vp" true "0.2"
        fatalCall).calledInstruction := by
  have h := claimC9_distinct_instructions sampleDeck sampleDeck
    "wands-0-0" "vp" "0.1" "0.2" true true fatalCall fatalCall
    (by decide) (by decide) (by decide)
  exact ⟨by decide, by decide, h.1, h.2.1, h.2.2⟩

/-- C10: regenerating with an id present in none of the five sections
is a no-op: the deck is returned unchanged and no image call is
issued. -/
theorem claimC10_unknown_id_noop (dk : Deck) (cid p : String)
    (hk : Bool) (rand : String) (call : Nat → CallRes)
    (h : ∀ s ∈ SECTIONS, ∀ c ∈ dk.get s, c.id ≠ cid) :
    regenerateImage dk cid p hk rand call = ⟨dk, none⟩ := by
  have hf : findSec dk cid = none := by
    unfold findSec
    rw [List.find?_eq_none]
    intro s hs hcontra
    rw [List.any_eq_true] at hcontra
    obtain ⟨c, hc, heq⟩ := hcontra
    exact h s hs c hc (by simpa using heq)
  simp [regenerateImage, hf]

/-- C10 (witness): a concrete unknown id against a non-empty deck. -/
theorem claimC10_witness :
    regenerateImage sampleDeck "nope" "vp" true "0.5" fatalCall
      = ⟨sampleDeck, none⟩ :=
  claimC10_unknown_id_noop sampleDeck "nope" "vp" true "0.5" fatalCall
    (by decide)

end Tarot
